import Mathlib

/-!
Verification of the document-to-3D pipeline of the 3D-Maps backend.

This file gives a shallow embedding, in Lean 4, of the parts of the
repository that the checked claims are about:

* `_normalize_extraction_data` from `backend/app/tasks/processing.py`
  (the Normalizer: confidence filtering, footprint synthesis and fallbacks);
* the page-reordering step of `extract_pdf` and the footprint-candidate
  collection of `extract_cad` from
  `backend/app/processing/extractors/document_extractor.py`;
* `poll_until_done` from `backend/app/generation/meshy_client.py`;
* `generate_building`, `_generate_roof`, `_gabled_roof`, `_hipped_roof`,
  `_generate_balconies` and the related helpers from
  `backend/app/generation/geometry/building_generator.py`.

Python floats are modelled as rationals (`ℚ`) except where the source takes
a Euclidean norm (a square root); those derived values live in `ℝ` with
`Real.sqrt`.  Python `dict.get` of possibly-absent keys is modelled with
`Option` fields, Python `or`-defaulting (which treats `None`, `0` and `0.0`
as falsy) with explicit helpers, and Python exceptions with `Except` or
`Option` results.
-/

/-! ## Python value helpers -/

/-- Truncation toward zero, the behaviour of Python `int()` on a float. -/
def pyInt (q : ℚ) : ℤ :=
  if q < 0 then -((-q).floor) else q.floor

/-- Python `a or b` where `a` is an optional number: `None`, `0` and `0.0`
are falsy, so they fall through to `b`. -/
def pyOrQ (a : Option ℚ) (b : ℚ) : ℚ :=
  match a with
  | some x => if x = 0 then b else x
  | none => b

/-- Python `a or b` for optional integers (`None` and `0` are falsy). -/
def pyOrZ (a : Option ℤ) (b : ℤ) : ℤ :=
  match a with
  | some x => if x = 0 then b else x
  | none => b

/-- Python `a or b` where both sides are optional numbers and the result may
still be `None` (used for `ab.get("total_area_sqm") or ab.get("footprint_area_sqm")`). -/
def pyOrOptQ (a : Option ℚ) (b : Option ℚ) : Option ℚ :=
  match a with
  | some x => if x = 0 then b else some x
  | none => b

/-- Python `a or b` for optional strings (`None` and `""` are falsy). -/
def pyOrStr (a : Option String) (b : String) : String :=
  match a with
  | some s => if s = "" then b else s
  | none => b

/-- A Python value sitting in a confidence slot.  `float(v)` succeeds on
numbers and numeric strings, raises `TypeError` on `None` and `ValueError`
on non-numeric strings. -/
inductive ConfVal where
  | num (q : ℚ)
  | numStr (q : ℚ)
  | badStr (s : String)
  | pynone
deriving DecidableEq

/-- The `try: float(confidence) except (TypeError, ValueError)` conversion of
`_normalize_extraction_data`: `some` on success, `none` when the `except`
branch would run. -/
def ConfVal.toFloat? : ConfVal → Option ℚ
  | .num q => some q
  | .numStr q => some q
  | .badStr _ => none
  | .pynone => none

/-! ## The Normalizer (`_normalize_extraction_data`, processing.py lines 70-182) -/

/-- `CONFIDENCE_THRESHOLD = 0.3` (processing.py line 70). -/
def CONFIDENCE_THRESHOLD : ℚ := 3/10

/-- One entry of the AI interpretation's `buildings` list.  Every key the
Normalizer reads is a field; an absent key is `none`.  Numeric fields are
rationals; the confidence slots keep the raw Python value since the source
runs `float()` on them. -/
structure AiEntry where
  name : Option String := none
  underscore_confidence : Option ConfVal := none
  confidence : Option ConfVal := none
  height_meters : Option ℚ := none
  floor_count : Option ℤ := none
  floor_height_meters : Option ℚ := none
  width : Option ℚ := none
  depth : Option ℚ := none
  roof_type : Option String := none
  total_area_sqm : Option ℚ := none
  footprint_area_sqm : Option ℚ := none
  units : Option ℚ := none
  use_type : Option String := none
deriving DecidableEq

/-- `ab.get("_confidence", ab.get("confidence", overall_confidence))`
(processing.py line 110). -/
def effectiveConf (overall : ConfVal) (ab : AiEntry) : ConfVal :=
  ab.underscore_confidence.getD (ab.confidence.getD overall)

/-- The `specifications` mapping built for an AI-derived building
(processing.py lines 151-156). -/
structure BuildingSpecs where
  total_area_sqm : Option ℚ
  residential_units : Option ℚ
  use_type : Option String
  ai_confidence : ℚ
deriving DecidableEq

/-- A normalized building record as returned by `_normalize_extraction_data`.
`specifications = none` models the empty dict `{}` of the coordinate and
fallback branches. -/
structure Building where
  name : String
  height_meters : ℚ
  floor_count : ℤ
  floor_height_meters : ℚ
  roof_type : String
  footprint : List (ℚ × ℚ)
  specifications : Option BuildingSpecs
deriving DecidableEq

/-- The `building_dimensions` sub-record of a floor-plan interpretation. -/
structure BuildingDims where
  estimated_area_sqm : Option ℚ := none
  width_meters : Option ℚ := none
  depth_meters : Option ℚ := none
deriving DecidableEq

/-- The AI interpretation result when it is a dict; the Normalizer is also
called with non-dict values, modelled as `none` at the call sites below. -/
structure Interp where
  confidence : Option ConfVal := none
  buildings : Option (List AiEntry) := none
  building_dimensions : Option BuildingDims := none
  total_height_meters : Option ℚ := none
  floor_count : Option ℤ := none
  floor_height_meters : Option ℚ := none
  roof_type : Option String := none
deriving DecidableEq

/-- The extraction result as the Normalizer sees it through `to_dict()`:
only the `coordinates` field is read by `_normalize_extraction_data`
(processing.py line 131), so only it is modelled here. -/
structure ExtractionResult where
  coordinates : List (List (ℚ × ℚ)) := []
deriving DecidableEq

/-- `interpretation_result.get("confidence", 0.0)` guarded by
`isinstance(interpretation_result, dict)` (processing.py lines 83-85). -/
def overallConfidence : Option Interp → ConfVal
  | some itp => itp.confidence.getD (.num 0)
  | none => .num 0

/-- `chr(65 + i)` prefixed with `"Building "`: the default name of the i-th
building. -/
def defaultBuildingName (i : ℕ) : String :=
  "Building " ++ String.singleton (Char.ofNat (65 + i))

/-- The `ai_buildings` list after the reshaping step (processing.py lines
87-105): the interpretation's `buildings` list if non-empty, else a
one-element list built from `building_dimensions` when that key is present,
else empty. -/
def aiBuildings (interp : Option Interp) : List AiEntry :=
  match interp with
  | none => []
  | some itp =>
    let bs := itp.buildings.getD []
    if bs = [] then
      match itp.building_dimensions with
      | some dims =>
        [{ name := some "Building A"
           height_meters := itp.total_height_meters
           floor_count := itp.floor_count
           floor_height_meters := itp.floor_height_meters
           footprint_area_sqm := dims.estimated_area_sqm
           width := some (dims.width_meters.getD 20)
           depth := some (dims.depth_meters.getD 15)
           roof_type := some (itp.roof_type.getD "flat")
           underscore_confidence := some (itp.confidence.getD (.num 0)) }]
      | none => []
    else bs

/-- The rectangular footprint synthesized for the i-th AI building when no
extracted polygon is available at its index (processing.py lines 134-142):
offset along x by `i * (width + 10)`. -/
def synthFootprint (i : ℕ) (width depth : ℚ) : List (ℚ × ℚ) :=
  let offset_x := (i : ℚ) * (width + 10)
  [(offset_x, 0), (offset_x + width, 0), (offset_x + width, depth),
   (offset_x, depth), (offset_x, 0)]

/-- The body of the `for i, ab in enumerate(ai_buildings)` loop
(processing.py lines 108-157): the (zero- or one-element) list of building
records the i-th AI entry appends. -/
def normalizeAiEntry (coordinates : List (List (ℚ × ℚ))) (overall : ConfVal)
    (i : ℕ) (ab : AiEntry) : List Building :=
  let conf : ℚ := (effectiveConf overall ab).toFloat?.getD 0
  if conf < CONFIDENCE_THRESHOLD then []
  else
    let width := ab.width.getD 20
    let depth := ab.depth.getD 15
    let height := pyOrQ ab.height_meters 10
    let floors : ℤ := pyOrZ ab.floor_count (max 1 (pyInt (height / 3)))
    let floor_height := pyOrQ ab.floor_height_meters (height / (floors : ℚ))
    let footprint :=
      if coordinates ≠ [] ∧ i < coordinates.length then coordinates.getD i []
      else synthFootprint i width depth
    [{ name := ab.name.getD (defaultBuildingName i)
       height_meters := height
       floor_count := floors
       floor_height_meters := floor_height
       roof_type := ab.roof_type.getD "flat"
       footprint := footprint
       specifications := some
         { total_area_sqm := pyOrOptQ ab.total_area_sqm ab.footprint_area_sqm
           residential_units := ab.units
           use_type := ab.use_type
           ai_confidence := conf } }]

/-- `_normalize_extraction_data` (processing.py lines 73-182).  The
`for`-loop over `enumerate(ai_buildings)` appending per-entry records is a
`flatMap` over the enumerated list. -/
def normalize_extraction_data (extraction : ExtractionResult)
    (interp : Option Interp) : List Building :=
  let overall := overallConfidence interp
  let ai := aiBuildings interp
  if ai ≠ [] then
    ai.enum.flatMap (fun p => normalizeAiEntry extraction.coordinates overall p.1 p.2)
  else if extraction.coordinates ≠ [] then
    extraction.coordinates.enum.map (fun p =>
      { name := defaultBuildingName p.1
        height_meters := 10
        floor_count := 3
        floor_height_meters := 333/100
        roof_type := "flat"
        footprint := p.2
        specifications := none })
  else
    [{ name := "Building A"
       height_meters := 10
       floor_count := 3
       floor_height_meters := 333/100
       roof_type := "flat"
       footprint := [(0, 0), (20, 0), (20, 15), (0, 15), (0, 0)]
       specifications := none }]

/-- The spec's notion of a closed-polygon footprint: at least 4 points
(including the repeated closing vertex) and first point equal to last. -/
def closedPolygon4 (fp : List (ℚ × ℚ)) : Prop :=
  4 ≤ fp.length ∧ fp.head? = fp.getLast?

instance (fp : List (ℚ × ℚ)) : Decidable (closedPolygon4 fp) := by
  unfold closedPolygon4; infer_instance

/-- The axis-aligned bounding box of a footprint (used to state when two
synthesized rectangular footprints overlap). -/
structure Box where
  xmin : ℚ
  xmax : ℚ
  ymin : ℚ
  ymax : ℚ
deriving DecidableEq

/-- Bounding box of a footprint's points; `none` for an empty footprint. -/
def footprintBox : List (ℚ × ℚ) → Option Box
  | [] => none
  | p :: rest =>
    some (rest.foldl
      (fun b q => ⟨min b.xmin q.1, max b.xmax q.1, min b.ymin q.2, max b.ymax q.2⟩)
      ⟨p.1, p.1, p.2, p.2⟩)

/-- Whether a point lies in the (closed) bounding box of a footprint. -/
def inFootprintBox (fp : List (ℚ × ℚ)) (p : ℚ × ℚ) : Bool :=
  match footprintBox fp with
  | none => false
  | some b => decide (b.xmin ≤ p.1 ∧ p.1 ≤ b.xmax ∧ b.ymin ≤ p.2 ∧ p.2 ≤ b.ymax)

/-! ## PDF page reordering (`extract_pdf`, document_extractor.py lines 203-213) -/

/-- The four page classes `_classify_pdf_page` can produce. -/
inductive PageType where
  | floor_plan
  | elevation
  | schedule
  | text
deriving DecidableEq

/-- A per-page classification record, restricted to the fields the sorting
step of `extract_pdf` reads (`"type"` and `"confidence"`); `page` is the
original page number it was produced with. -/
structure PageClassification where
  page : ℕ
  ptype : PageType
  confidence : ℚ
deriving DecidableEq

/-- `type_priority = {"floor_plan": 0, "elevation": 1, "schedule": 2, "text": 3}`
(document_extractor.py line 204); the `.get(..., 3)` default never fires since
classifications only carry these four types. -/
def typePriority : PageType → ℕ
  | .floor_plan => 0
  | .elevation => 1
  | .schedule => 2
  | .text => 3

/-- The comparison realised by Python's stable sort under the key
`(type_priority.get(x[1]["type"], 3), -x[1]["confidence"])`: ascending
priority, then descending confidence. -/
def pageSortLE (a b : ℕ × PageClassification) : Bool :=
  if typePriority a.2.ptype < typePriority b.2.ptype then true
  else if typePriority b.2.ptype < typePriority a.2.ptype then false
  else decide (b.2.confidence ≤ a.2.confidence)

/-- The page-reordering step of `extract_pdf` (document_extractor.py lines
203-213): stable-sort `enumerate(result.page_classifications)` by the
composite key, then rebuild `images` by original index and take the sorted
classifications.  Image byte buffers are abstract tokens (`ℕ`); Python's
`sorted` is a stable merge sort, modelled by `List.mergeSort` (also stable).
`images.getD p.1 0` is the indexing `result.images[i]`, in bounds whenever
the two lists are parallel. -/
def sortPagesByClassification (images : List ℕ) (cls : List PageClassification) :
    List ℕ × List PageClassification :=
  let sorted_pages := cls.enum.mergeSort pageSortLE
  (sorted_pages.map (fun p => images.getD p.1 0), sorted_pages.map (fun p => p.2))

/-! ## CAD extraction (`extract_cad`, document_extractor.py lines 282-334) -/

/-- A DXF `LWPOLYLINE`/`POLYLINE` entity as `extract_cad` reads it:
`get_points()` projected to x,y, plus the entity's closed flag (which the
source never inspects). -/
structure DxfPolyline where
  points : List (ℚ × ℚ)
  closed : Bool
deriving DecidableEq

/-- The modelspace entities `extract_cad` iterates over. -/
inductive DxfEntity where
  | line (start stop : ℚ × ℚ) (layer : String)
  | polyline (p : DxfPolyline) (layer : String)
  | dimension (value : Option ℚ) (text : String)
  | other (kind : String)
deriving DecidableEq

/-- The `polylines` list collected by the entity loop of `extract_cad`
(document_extractor.py lines 299-308). -/
def cadPolylines (entities : List DxfEntity) : List DxfPolyline :=
  entities.filterMap (fun e =>
    match e with
    | .polyline p _ => some p
    | _ => none)

/-- The footprint candidates appended to `result.coordinates` by
`extract_cad` (document_extractor.py lines 321-324): every collected
polyline with at least 3 points, in order.  The source checks only
`len(poly["points"]) >= 3`. -/
def extract_cad_coordinates (entities : List DxfEntity) : List (List (ℚ × ℚ)) :=
  ((cadPolylines entities).filter (fun poly => 3 ≤ poly.points.length)).map
    (fun poly => poly.points)

/-! ## Meshy polling (`poll_until_done`, meshy_client.py lines 96-136) -/

/-- A Meshy task-status response as `poll_until_done` reads it: the
`status` string plus the fields the error message is built from. -/
structure MeshyTaskResult where
  status : String
  message : Option String := none
  error : Option String := none
  progress : ℕ := 0
deriving DecidableEq

/-- The three ways `poll_until_done` can end: return the result dict, raise
`RuntimeError`, or raise `TimeoutError`. -/
inductive PollOutcome where
  | ok (result : MeshyTaskResult)
  | runtimeError (msg : String)
  | timeoutError (msg : String)
deriving DecidableEq

/-- `result.get("message") or result.get("error") or "Unknown error"`
(meshy_client.py line 129). -/
def meshyErrorMsg (r : MeshyTaskResult) : String :=
  pyOrStr r.message (pyOrStr r.error "Unknown error")

/-- The `while elapsed < timeout` loop of `poll_until_done` (meshy_client.py
lines 121-134).  The k-th status check is `task k` (each `await get_fn` call
is one step of the trace `task`); `elapsed` advances by `poll_interval`
after every non-terminal check.  Termination needs `0 < poll_interval`,
which holds at every call site (the default is 10). -/
def pollLoop (task : ℕ → MeshyTaskResult) (task_id : String)
    (timeout poll_interval : ℕ) (hp : 0 < poll_interval)
    (k elapsed : ℕ) : PollOutcome :=
  if _h : elapsed < timeout then
    let result := task k
    let status := result.status.toUpper
    if status = "SUCCEEDED" then .ok result
    else if status = "FAILED" ∨ status = "EXPIRED" then
      .runtimeError ("Meshy task " ++ task_id ++ " failed: " ++ meshyErrorMsg result)
    else pollLoop task task_id timeout poll_interval hp (k + 1) (elapsed + poll_interval)
  else
    .timeoutError ("Meshy task " ++ task_id ++ " timed out after " ++
      toString timeout ++ "s")
termination_by timeout - elapsed
decreasing_by omega

/-- `poll_until_done` (meshy_client.py lines 96-136), entered with
`elapsed = 0` and the first status check. -/
def poll_until_done (task : ℕ → MeshyTaskResult) (task_id : String)
    (timeout poll_interval : ℕ) (hp : 0 < poll_interval) : PollOutcome :=
  pollLoop task task_id timeout poll_interval hp 0 0

/-- How many status checks the loop performs when no check is terminal:
checks happen at elapsed times `0, p, 2p, ...` strictly below `timeout`,
i.e. `ceil(timeout / poll_interval)` of them. -/
def numPollChecks (timeout poll_interval : ℕ) : ℕ :=
  (timeout + poll_interval - 1) / poll_interval

/-- Whether a status check reports a terminal status. -/
def isTerminalStatus (r : MeshyTaskResult) : Bool :=
  r.status.toUpper = "SUCCEEDED" || r.status.toUpper = "FAILED" ||
    r.status.toUpper = "EXPIRED"

/-- Modelled from the spec claim's words, for comparison with
`poll_until_done`: scan the checks in order; return the task result at the
first check reporting SUCCEEDED; raise `RuntimeError` at the first check
reporting FAILED or EXPIRED; and if no terminal status is observed before
elapsed time reaches the timeout ceiling (no terminal status among the
`numPollChecks` checks), raise `TimeoutError`. -/
def pollOutcomeSpec (task : ℕ → MeshyTaskResult) (task_id : String)
    (timeout poll_interval : ℕ) : PollOutcome :=
  match (List.range (numPollChecks timeout poll_interval)).find?
      (fun k => isTerminalStatus (task k)) with
  | some k =>
    if (task k).status.toUpper = "SUCCEEDED" then .ok (task k)
    else .runtimeError ("Meshy task " ++ task_id ++ " failed: " ++ meshyErrorMsg (task k))
  | none =>
    .timeoutError ("Meshy task " ++ task_id ++ " timed out after " ++
      toString timeout ++ "s")

/-! ## Building geometry (`building_generator.py`) -/

/-- An explicit vertex/face mesh (`trimesh.Trimesh(vertices=..., faces=...)`).
Faces are vertex-index triples, so every face is a triangle. -/
structure Mesh where
  vertices : List (ℚ × ℚ × ℚ)
  faces : List (ℕ × ℕ × ℕ)
deriving DecidableEq

/-- `_gabled_roof` (building_generator.py lines 214-248): bounding box of the
footprint, ridge at `base_height + 0.3 * width`, six triangular faces.
`np.min`/`np.max` over an empty footprint raise, caught by the handler,
hence `none` for `[]`. -/
def gabled_roof (footprint : List (ℚ × ℚ)) (base_height : ℚ) : Option Mesh :=
  match footprint with
  | [] => none
  | p :: rest =>
    let min_x := rest.foldl (fun m q => min m q.1) p.1
    let max_x := rest.foldl (fun m q => max m q.1) p.1
    let min_y := rest.foldl (fun m q => min m q.2) p.2
    let max_y := rest.foldl (fun m q => max m q.2) p.2
    let center_x := (min_x + max_x) / 2
    let width := max_x - min_x
    let ridge_height := width * (3/10)
    some
      { vertices := [
          (min_x, min_y, base_height), (max_x, min_y, base_height),
          (max_x, max_y, base_height), (min_x, max_y, base_height),
          (center_x, min_y, base_height + ridge_height),
          (center_x, max_y, base_height + ridge_height)]
        faces := [(0, 1, 4), (1, 2, 5), (1, 5, 4), (2, 3, 5), (3, 0, 4), (3, 4, 5)] }

/-- `_hipped_roof` (building_generator.py lines 250-278): single apex at the
bounding-box centre, `base_height + 0.25 * width`, four triangular faces. -/
def hipped_roof (footprint : List (ℚ × ℚ)) (base_height : ℚ) : Option Mesh :=
  match footprint with
  | [] => none
  | p :: rest =>
    let min_x := rest.foldl (fun m q => min m q.1) p.1
    let max_x := rest.foldl (fun m q => max m q.1) p.1
    let min_y := rest.foldl (fun m q => min m q.2) p.2
    let max_y := rest.foldl (fun m q => max m q.2) p.2
    let center_x := (min_x + max_x) / 2
    let center_y := (min_y + max_y) / 2
    let width := max_x - min_x
    let ridge_height := width * (1/4)
    some
      { vertices := [
          (min_x, min_y, base_height), (max_x, min_y, base_height),
          (max_x, max_y, base_height), (min_x, max_y, base_height),
          (center_x, center_y, base_height + ridge_height)]
        faces := [(0, 1, 4), (1, 2, 4), (2, 3, 4), (3, 0, 4)] }

/-- `_generate_roof` (building_generator.py lines 192-212): `flat` and any
unrecognized type yield no roof mesh. -/
def generate_roof (footprint : List (ℚ × ℚ)) (building_height : ℚ)
    (roof_type : String) : Option Mesh :=
  if roof_type = "flat" then none
  else if roof_type = "gabled" then gabled_roof footprint building_height
  else if roof_type = "hipped" then hipped_roof footprint building_height
  else none

/-- Squared Euclidean length of the edge from `a` to `b`. -/
def edgeLenSq (a b : ℚ × ℚ) : ℚ :=
  (b.1 - a.1) ^ 2 + (b.2 - a.2) ^ 2

/-- The longest-edge search loop shared by `_generate_door` and
`_generate_balconies` (building_generator.py lines 287-293 and 399-404):
`best_idx`/`best_len` over `range(len(pts) - 1)` with a strict `>` update.
The source compares Euclidean norms; since `Real.sqrt` is strictly monotone
on nonnegatives, comparing squared lengths is the same comparison, so the
fold tracks the square of the loop's `best_len`. -/
def bestEdgeFold (pts : List (ℚ × ℚ)) : ℕ × ℚ :=
  (List.range (pts.length - 1)).foldl
    (fun acc i =>
      let l := edgeLenSq (pts.getD i (0, 0)) (pts.getD (i + 1) (0, 0))
      if acc.2 < l then (i, l) else acc)
    (0, 0)

/-- A placed axis box after rotation to an edge direction and translation
(`trimesh.creation.box` + `apply_transform` + `apply_translation`). -/
structure BoxData where
  extents : ℝ × ℝ × ℝ
  edge_dir : ℝ × ℝ
  translation : ℝ × ℝ × ℝ

/-- Marks whether a balcony mesh is the slab or the railing box. -/
inductive BalconyKind where
  | slab
  | railing
deriving DecidableEq

/-- One mesh appended by `_generate_balconies`. -/
structure BalconyMesh where
  kind : BalconyKind
  extents : ℝ × ℝ × ℝ
  edge_dir : ℝ × ℝ
  translation : ℝ × ℝ × ℝ

/-- `_generate_balconies` (building_generator.py lines 387-450).  For fewer
than 2 points, `pts[best_idx + 1]` raises `IndexError`, the handler returns
the (still empty) accumulated list.  Otherwise, per floor index in
`range(1, floors)`, a slab of extents `(min(2.5, best_len*0.3), 1.2, 0.15)`
and a railing of extents `(width, 0.05, 1.0)` are appended, both offset
along the longest edge's outward normal `(-dir_y, dir_x)`. -/
noncomputable def generate_balconies (pts : List (ℚ × ℚ)) (floors : ℤ)
    (floor_height : ℚ) : List BalconyMesh :=
  if pts.length < 2 then []
  else
    let best := bestEdgeFold pts
    let edge_start := pts.getD best.1 (0, 0)
    let edge_end := pts.getD (best.1 + 1) (0, 0)
    let best_len : ℝ := Real.sqrt ((best.2 : ℚ) : ℝ)
    let edge_norm : ℝ := Real.sqrt ((edgeLenSq edge_start edge_end : ℚ) : ℝ)
    let edge_dir : ℝ × ℝ :=
      (((edge_end.1 - edge_start.1 : ℚ) : ℝ) / edge_norm,
       ((edge_end.2 - edge_start.2 : ℚ) : ℝ) / edge_norm)
    let normal : ℝ × ℝ := (-edge_dir.2, edge_dir.1)
    let balcony_width : ℝ := min 2.5 (best_len * 0.3)
    let mid : ℚ × ℚ := ((edge_start.1 + edge_end.1) / 2, (edge_start.2 + edge_end.2) / 2)
    (List.range' 1 (floors - 1).toNat).flatMap (fun floor_idx =>
      let z_pos : ℝ := (((floor_idx : ℚ) * floor_height : ℚ) : ℝ)
      [ { kind := .slab
          extents := (balcony_width, 1.2, 0.15)
          edge_dir := edge_dir
          translation := ((mid.1 : ℝ) + normal.1 * (1.2 / 2),
                          (mid.2 : ℝ) + normal.2 * (1.2 / 2), z_pos) },
        { kind := .railing
          extents := (balcony_width, 0.05, 1.0)
          edge_dir := edge_dir
          translation := ((mid.1 : ℝ) + normal.1 * 1.2,
                          (mid.2 : ℝ) + normal.2 * 1.2, z_pos + 0.5) } ])

/-- `_generate_windows` (building_generator.py lines 324-385): for every
footprint edge of length at least 2 (compared on squares), place
`max(1, int((edge_len - 1) / 3))` boxes of extents `(1.2, 0.1, 1.5)` per
floor, evenly spaced along the edge, offset 0.05 outward along the normal
at `0.4 * floor_height` above each floor level. -/
noncomputable def generate_windows (pts : List (ℚ × ℚ)) (floors : ℤ)
    (floor_height : ℚ) : List BoxData :=
  (List.range (pts.length - 1)).flatMap (fun i =>
    let edge_start := pts.getD i (0, 0)
    let edge_end := pts.getD (i + 1) (0, 0)
    let sq := edgeLenSq edge_start edge_end
    if sq < 4 then []
    else
      let edge_len : ℝ := Real.sqrt ((sq : ℚ) : ℝ)
      let edge_dir : ℝ × ℝ :=
        (((edge_end.1 - edge_start.1 : ℚ) : ℝ) / edge_len,
         ((edge_end.2 - edge_start.2 : ℚ) : ℝ) / edge_len)
      let normal : ℝ × ℝ := (-edge_dir.2, edge_dir.1)
      let n_windows : ℤ := max 1 ⌊(edge_len - 1) / 3⌋
      (List.range floors.toNat).flatMap (fun floor_idx =>
        (List.range n_windows.toNat).map (fun win_idx =>
          let t : ℝ := ((win_idx : ℝ) + 1) / ((n_windows : ℝ) + 1)
          let pos_x : ℝ := (edge_start.1 : ℝ) + t * ((edge_end.1 - edge_start.1 : ℚ) : ℝ)
          let pos_y : ℝ := (edge_start.2 : ℝ) + t * ((edge_end.2 - edge_start.2 : ℚ) : ℝ)
          let z_pos : ℝ := (((floor_idx : ℚ) * floor_height : ℚ) : ℝ) +
            ((floor_height : ℚ) : ℝ) * 0.4
          { extents := (1.2, 0.1, 1.5)
            edge_dir := edge_dir
            translation := (pos_x + normal.1 * 0.05, pos_y + normal.2 * 0.05, z_pos) })))

/-- `_generate_door` (building_generator.py lines 280-322): one box of
extents `(1.0, 0.12, 2.2)` at the midpoint of the longest edge.  The
`floor_height` parameter is taken but unused by the source.  For fewer than
2 points the indexing raises, caught by the handler: `none`. -/
noncomputable def generate_door (pts : List (ℚ × ℚ)) (_floor_height : ℚ) :
    Option BoxData :=
  if pts.length < 2 then none
  else
    let best := bestEdgeFold pts
    let edge_start := pts.getD best.1 (0, 0)
    let edge_end := pts.getD (best.1 + 1) (0, 0)
    let edge_norm : ℝ := Real.sqrt ((edgeLenSq edge_start edge_end : ℚ) : ℝ)
    let edge_dir : ℝ × ℝ :=
      (((edge_end.1 - edge_start.1 : ℚ) : ℝ) / edge_norm,
       ((edge_end.2 - edge_start.2 : ℚ) : ℝ) / edge_norm)
    let normal : ℝ × ℝ := (-edge_dir.2, edge_dir.1)
    let mid : ℚ × ℚ := ((edge_start.1 + edge_end.1) / 2, (edge_start.2 + edge_end.2) / 2)
    some
      { extents := (1.0, 0.12, 2.2)
        edge_dir := edge_dir
        translation := ((mid.1 : ℝ) + normal.1 * 0.06,
                        (mid.2 : ℝ) + normal.2 * 0.06, 2.2 / 2) }

/-- `_generate_cornice` (building_generator.py lines 452-494): one box of
extents `(edge_len + 0.3, 0.3, 0.3)` per edge of length at least 0.5
(compared on squares), at roofline height; the boxes are concatenated into
one mesh, and `none` is returned when no edge qualifies. -/
noncomputable def generate_cornice (pts : List (ℚ × ℚ)) (building_height : ℚ) :
    Option (List BoxData) :=
  let meshes := (List.range (pts.length - 1)).flatMap (fun i =>
    let edge_start := pts.getD i (0, 0)
    let edge_end := pts.getD (i + 1) (0, 0)
    let sq := edgeLenSq edge_start edge_end
    if sq < 1/4 then []
    else
      let edge_len : ℝ := Real.sqrt ((sq : ℚ) : ℝ)
      let edge_dir : ℝ × ℝ :=
        (((edge_end.1 - edge_start.1 : ℚ) : ℝ) / edge_len,
         ((edge_end.2 - edge_start.2 : ℚ) : ℝ) / edge_len)
      let normal : ℝ × ℝ := (-edge_dir.2, edge_dir.1)
      let mid : ℚ × ℚ := ((edge_start.1 + edge_end.1) / 2, (edge_start.2 + edge_end.2) / 2)
      [{ extents := (edge_len + 0.3, 0.3, 0.3)
         edge_dir := edge_dir
         translation := ((mid.1 : ℝ) + normal.1 * 0.15,
                         (mid.2 : ℝ) + normal.2 * 0.15,
                         ((building_height : ℚ) : ℝ) + 0.15) }])
  if meshes.isEmpty then none else some meshes

/-- The geometry kinds a scene entry can hold.  The calls into trimesh and
shapely (`extrude_polygon`, `box`, `concatenate`) are external library
operations; their outputs are represented symbolically by the data the
source passes to them. -/
inductive SceneGeom where
  | extrudedPolygon (polygon : List (ℚ × ℚ)) (height : ℚ) (z_offset : ℚ)
  | triMesh (m : Mesh)
  | box (b : BoxData)
  | corniceConcat (boxes : List BoxData)

/-- Closing step of `_extrude_footprint` (building_generator.py lines
157-159): append the first point when first and last differ. -/
def closeFootprint (fp : List (ℚ × ℚ)) : List (ℚ × ℚ) :=
  match fp with
  | [] => []
  | p :: _ => if fp.getLast? = some p then fp else fp ++ [p]

/-- `_extrude_footprint` (building_generator.py lines 149-174): `none` for
fewer than 3 points, else the closed polygon extruded by `height`. -/
def extrude_footprint (footprint : List (ℚ × ℚ)) (height : ℚ) : Option SceneGeom :=
  if footprint.length < 3 then none
  else some (.extrudedPolygon (closeFootprint footprint) height 0)

/-- `_create_floor_plate` (building_generator.py lines 176-190): a 0.2-thick
extrusion translated to `elevation`.  A shapely `Polygon` of fewer than 3
points raises, caught by the handler: `none`. -/
def create_floor_plate (footprint : List (ℚ × ℚ)) (elevation : ℚ) : Option SceneGeom :=
  if footprint.length < 3 then none
  else some (.extrudedPolygon footprint (2/10) elevation)

/-- The Python error `generate_building` can raise before its first
geometry step. -/
inductive PyErr where
  | zeroDivision
deriving DecidableEq

/-- The `features` mapping of the generator input: the truthiness of its
`windows` and `balconies` keys is all the source branches on. -/
structure GenFeatures where
  windows : Bool := false
  balconies : Bool := false
deriving DecidableEq

/-- The `building_data` dict passed to `generate_building`.  `footprint` is
accessed with `building_data["footprint"]`, so it is a required field; every
other key is read through `.get`. -/
structure BuildingGenData where
  footprint : List (ℚ × ℚ)
  height : Option ℚ := none
  floors : Option ℤ := none
  floor_height : Option ℚ := none
  roof_type : Option String := none
  materials_facade : Option String := none
  features : GenFeatures := {}

/-- One named, material-tagged geometry added to the trimesh scene. -/
structure SceneEntry where
  gname : String
  material : String
  geom : SceneGeom

/-- A trimesh scene: the geometries in the order they were added. -/
abbrev Scene := List SceneEntry

/-- `generate_building` (building_generator.py lines 77-147).  Python
evaluates the default argument of
`building_data.get("floor_height", height / floors)` before the lookup, so
the division runs even when the key is present: `floors = 0` raises
`ZeroDivisionError` there (line 93), before any geometry step, and the
per-step try/except recovery of the helpers never runs.  All other inputs
build a scene from the body extrusion, floor plates, roof, windows, door,
balconies and cornice, in source order, skipping the parts whose helper
returned nothing. -/
noncomputable def generate_building (bd : BuildingGenData) : Except PyErr Scene :=
  let footprint := bd.footprint
  let height := bd.height.getD 10
  let floors : ℤ := bd.floors.getD 3
  if floors = 0 then .error .zeroDivision
  else
    let floor_height := bd.floor_height.getD (height / (floors : ℚ))
    let roof_type := bd.roof_type.getD "flat"
    let facade_mat := bd.materials_facade.getD "concrete"
    let roof_mat := if roof_type ≠ "flat" then "roof_tile" else "concrete"
    let bodyPart : Scene :=
      match extrude_footprint footprint height with
      | some g => [⟨"building_body", facade_mat, g⟩]
      | none => []
    let platesPart : Scene :=
      (List.range' 1 (floors - 1).toNat).filterMap (fun i =>
        (create_floor_plate footprint ((i : ℚ) * floor_height)).map
          (fun g => ⟨"floor_" ++ toString i, "floor_slab", g⟩))
    let roofPart : Scene :=
      match generate_roof footprint height roof_type with
      | some m => [⟨"roof", roof_mat, .triMesh m⟩]
      | none => []
    let windowsPart : Scene :=
      if bd.features.windows then
        (generate_windows footprint floors floor_height).enum.map (fun p =>
          ⟨"window_" ++ toString p.1, "glass", .box p.2⟩)
      else []
    let doorPart : Scene :=
      match generate_door footprint floor_height with
      | some b => [⟨"door", "wood", .box b⟩]
      | none => []
    let balconiesPart : Scene :=
      if bd.features.balconies ∧ 1 < floors then
        (generate_balconies footprint floors floor_height).enum.map (fun p =>
          ⟨"balcony_" ++ toString p.1, "concrete",
            .box ⟨p.2.extents, p.2.edge_dir, p.2.translation⟩⟩)
      else []
    let cornicePart : Scene :=
      match generate_cornice footprint height with
      | some boxes => [⟨"cornice", "concrete", .corniceConcat boxes⟩]
      | none => []
    .ok (bodyPart ++ platesPart ++ roofPart ++ windowsPart ++ doorPart ++
      balconiesPart ++ cornicePart)

/-! ## Concrete sample inputs used by witnesses and counterexamples -/

/-- A closed 10 by 5 rectangular footprint. -/
def sampleRectFootprint : List (ℚ × ℚ) :=
  [(0, 0), (10, 0), (10, 5), (0, 5), (0, 0)]

/-- An extraction result with no coordinates. -/
def emptyExtraction : ExtractionResult := ⟨[]⟩

/-- An AI building entry with per-item confidence 0.8. -/
def c1SampleEntry : AiEntry := { underscore_confidence := some (.num (4/5)) }

/-- An interpretation result carrying exactly `c1SampleEntry`. -/
def c1SampleInterp : Interp := { buildings := some [c1SampleEntry] }

/-- An AI building entry whose confidence slot holds `None`, so `float()`
raises `TypeError` on it. -/
def c10SampleEntry : AiEntry := { underscore_confidence := some .pynone }

/-- An interpretation with high overall confidence carrying `c10SampleEntry`. -/
def c10SampleInterp : Interp :=
  { confidence := some (.num (9/10)), buildings := some [c10SampleEntry] }

/-- An extraction result whose only coordinate polygon is an unclosed
triangle (3 points, first point not repeated). -/
def openTriangleExtraction : ExtractionResult := ⟨[[(0, 0), (1, 0), (0, 1)]]⟩

/-- The default building emitted by the Normalizer's final fallback. -/
def c2FallbackBuilding : Building :=
  { name := "Building A", height_meters := 10, floor_count := 3
    floor_height_meters := 333/100, roof_type := "flat"
    footprint := [(0, 0), (20, 0), (20, 15), (0, 15), (0, 0)]
    specifications := none }

/-- Two fully-confident AI building entries of widths 100 and 5. -/
def c3TwoEntryInterp : Interp :=
  { buildings := some
      [{ width := some 100, underscore_confidence := some (.num 1) },
       { width := some 5, underscore_confidence := some (.num 1) }] }

/-- One fully-confident AI entry of width 5 (the second entry of
`c3TwoEntryInterp`). -/
def c3WitnessEntry : AiEntry :=
  { width := some 5, underscore_confidence := some (.num 1) }

/-- An unclosed 3-point polyline (closed flag false). -/
def openTriPolyline : DxfPolyline := ⟨[(0, 0), (1, 0), (0, 1)], false⟩

/-- Two image tokens for the page-sorting witness. -/
def c5SampleImages : List ℕ := [101, 102]

/-- Two classifications: a text page before a floor plan, so sorting must
move the floor plan first. -/
def c5SampleCls : List PageClassification :=
  [⟨0, .text, 1/2⟩, ⟨1, .floor_plan, 7/10⟩]

/-- A status trace that is PENDING twice and then SUCCEEDED. -/
def c8SampleTask : ℕ → MeshyTaskResult := fun k =>
  if k < 2 then { status := "PENDING" } else { status := "SUCCEEDED" }

/-- Generator input with `floors = 0` and an explicit `floor_height`. -/
def c9SampleData : BuildingGenData :=
  { footprint := [(0, 0), (10, 0), (10, 5), (0, 5), (0, 0)]
    floors := some 0
    floor_height := some 3 }

/-! ## Theorems -/

/-- An element read with an in-bounds index is a member of the list. -/
theorem getD_mem_of_lt {α : Type _} (l : List α) (i : ℕ) (d : α)
    (h : i < l.length) : l.getD i d ∈ l := by
  rw [List.getD_eq_getElem?_getD, List.getElem?_eq_getElem h]
  exact List.getElem_mem h

/-- The second component of an entry of `enumFrom` is a member of the list. -/
theorem mem_of_mem_enumFrom {α : Type _} :
    ∀ (l : List α) (n : ℕ) (p : ℕ × α), p ∈ l.enumFrom n → p.2 ∈ l := by
  intro l
  induction l with
  | nil => intro n p hp; simp [List.enumFrom] at hp
  | cons a t ih =>
    intro n p hp
    simp only [List.enumFrom, List.mem_cons] at hp
    rcases hp with h | h
    · subst h; exact List.mem_cons_self a t
    · exact List.mem_cons_of_mem a (ih (n + 1) p h)

/-- The second component of an entry of `enum` is a member of the list. -/
theorem mem_of_mem_enum {α : Type _} {l : List α} {p : ℕ × α}
    (hp : p ∈ l.enum) : p.2 ∈ l :=
  mem_of_mem_enumFrom l 0 p hp

/-- A synthesized rectangular footprint is a closed polygon with 5 points. -/
theorem closedPolygon4_synthFootprint (i : ℕ) (w d : ℚ) :
    closedPolygon4 (synthFootprint i w d) := by
  constructor
  · simp [synthFootprint]
  · rfl

/-- C1: for every AI building entry processed by the Normalizer, with
effective confidence the entry's `_confidence` if present, else its
`confidence`, else the overall interpretation confidence: below
`CONFIDENCE_THRESHOLD = 0.3` the entry contributes no building record, at or
above it exactly one; the per-entry processing is total (no error), and the
Normalizer's output is exactly the concatenation of the per-entry
contributions in order. -/
theorem c1_confidence_filter (extraction : ExtractionResult)
    (interp : Option Interp) (i : ℕ) (ab : AiEntry) (q : ℚ)
    (hne : aiBuildings interp ≠ [])
    (hq : (effectiveConf (overallConfidence interp) ab).toFloat? = some q) :
    normalize_extraction_data extraction interp =
      (aiBuildings interp).enum.flatMap (fun p =>
        normalizeAiEntry extraction.coordinates (overallConfidence interp) p.1 p.2)
    ∧ (q < CONFIDENCE_THRESHOLD →
        normalizeAiEntry extraction.coordinates (overallConfidence interp) i ab = [])
    ∧ (CONFIDENCE_THRESHOLD ≤ q →
        (normalizeAiEntry extraction.coordinates (overallConfidence interp) i ab).length = 1) := by
  refine ⟨?_, ?_, ?_⟩
  · simp [normalize_extraction_data, hne]
  · intro hlt
    simp [normalizeAiEntry, hq, hlt]
  · intro hge
    simp [normalizeAiEntry, hq, not_lt.mpr hge]

/-- C1 witness: a single entry of confidence 0.8 contributes exactly one
building record. -/
theorem c1_confidence_filter_witness :
    normalize_extraction_data emptyExtraction (some c1SampleInterp) =
      (aiBuildings (some c1SampleInterp)).enum.flatMap (fun p =>
        normalizeAiEntry emptyExtraction.coordinates
          (overallConfidence (some c1SampleInterp)) p.1 p.2)
    ∧ (normalizeAiEntry emptyExtraction.coordinates
        (overallConfidence (some c1SampleInterp)) 0 c1SampleEntry).length = 1 :=
  have h := c1_confidence_filter emptyExtraction (some c1SampleInterp) 0
    c1SampleEntry (4/5) (by decide) rfl
  ⟨h.1, h.2.2 (by norm_num [CONFIDENCE_THRESHOLD])⟩

/-- C10: an AI building entry whose effective confidence value `float()`
cannot convert (for example `None` or a non-numeric string) is coerced to
0.0 and contributes nothing to the Normalizer's output, whatever the
overall interpretation confidence is; no exception escapes (the per-entry
processing is a total function). -/
theorem c10_unconvertible_confidence_dropped (extraction : ExtractionResult)
    (interp : Option Interp) (i : ℕ) (ab : AiEntry)
    (hne : aiBuildings interp ≠ [])
    (hbad : (effectiveConf (overallConfidence interp) ab).toFloat? = none) :
    normalize_extraction_data extraction interp =
      (aiBuildings interp).enum.flatMap (fun p =>
        normalizeAiEntry extraction.coordinates (overallConfidence interp) p.1 p.2)
    ∧ normalizeAiEntry extraction.coordinates (overallConfidence interp) i ab = [] := by
  constructor
  · simp [normalize_extraction_data, hne]
  · simp [normalizeAiEntry, hbad, CONFIDENCE_THRESHOLD]

/-- C10 witness: an entry carrying `_confidence = None` is dropped even
though the overall interpretation confidence is 0.9. -/
theorem c10_unconvertible_confidence_dropped_witness :
    normalize_extraction_data emptyExtraction (some c10SampleInterp) =
      (aiBuildings (some c10SampleInterp)).enum.flatMap (fun p =>
        normalizeAiEntry emptyExtraction.coordinates
          (overallConfidence (some c10SampleInterp)) p.1 p.2)
    ∧ normalizeAiEntry emptyExtraction.coordinates
        (overallConfidence (some c10SampleInterp)) 0 c10SampleEntry = [] :=
  c10_unconvertible_confidence_dropped emptyExtraction (some c10SampleInterp) 0
    c10SampleEntry (by decide) (by decide)

/-- C2 counterexample: with an extracted coordinate polygon that is an
unclosed 3-point triangle and an empty interpretation, the Normalizer's
single output record carries that polygon unchanged, which is not a closed
polygon of at least 4 points — against the claim that every footprint it
returns is one. -/
theorem c2_counterexample :
    (normalize_extraction_data openTriangleExtraction none).map
      (fun b => b.footprint) = [[(0, 0), (1, 0), (0, 1)]]
    ∧ ¬ closedPolygon4 [(0, 0), (1, 0), (0, 1)] := by
  constructor
  · rfl
  · decide

/-- C2 amended: every building record returned by the Normalizer carries
either one of the extracted coordinate polygons, passed through unchanged
(and then of whatever shape the extractor produced), or a footprint the
Normalizer itself built, which is always a closed polygon of at least 4
points (first point equal to last). -/
theorem c2_footprint_closure (extraction : ExtractionResult)
    (interp : Option Interp) (b : Building)
    (hb : b ∈ normalize_extraction_data extraction interp) :
    b.footprint ∈ extraction.coordinates ∨ closedPolygon4 b.footprint := by
  unfold normalize_extraction_data at hb
  by_cases h1 : aiBuildings interp ≠ []
  · simp only [if_pos h1, List.mem_flatMap] at hb
    obtain ⟨p, hp, hbp⟩ := hb
    unfold normalizeAiEntry at hbp
    by_cases hc : ((effectiveConf (overallConfidence interp) p.2).toFloat?.getD 0) <
        CONFIDENCE_THRESHOLD
    · simp only [if_pos hc, List.not_mem_nil] at hbp
    · simp only [if_neg hc, List.mem_singleton] at hbp
      subst hbp
      simp only
      by_cases hcond : extraction.coordinates ≠ [] ∧ p.1 < extraction.coordinates.length
      · rw [if_pos hcond]
        exact Or.inl (getD_mem_of_lt _ _ _ hcond.2)
      · rw [if_neg hcond]
        exact Or.inr (closedPolygon4_synthFootprint _ _ _)
  · push_neg at h1
    simp only [h1, ne_eq, not_true_eq_false, if_false] at hb
    by_cases h2 : extraction.coordinates ≠ []
    · simp only [if_pos h2, List.mem_map] at hb
      obtain ⟨p, hp, hbp⟩ := hb
      subst hbp
      exact Or.inl (mem_of_mem_enum hp)
    · simp only [if_neg h2, List.mem_singleton] at hb
      subst hb
      exact Or.inr (by decide)

/-- C2 witness: the final-fallback building's footprint is a closed
polygon of at least 4 points. -/
theorem c2_footprint_closure_witness :
    c2FallbackBuilding.footprint ∈ emptyExtraction.coordinates
    ∨ closedPolygon4 c2FallbackBuilding.footprint :=
  c2_footprint_closure emptyExtraction none c2FallbackBuilding
    (List.mem_singleton.mpr rfl)

/-- Bounding box of a synthesized rectangular footprint: the x-interval is
`[i*(w+10), i*(w+10)+w]` when the width is nonnegative. -/
theorem footprintBox_synthFootprint (i : ℕ) (w d : ℚ) (hw : 0 ≤ w) :
    footprintBox (synthFootprint i w d) =
      some ⟨(i : ℚ) * (w + 10), (i : ℚ) * (w + 10) + w, min 0 d, max 0 d⟩ := by
  simp only [synthFootprint, footprintBox, List.foldl, Option.some.injEq]
  refine Box.mk.injEq _ _ _ _ _ _ _ _ ▸ ?_
  refine ⟨?_, ?_, ?_, ?_⟩ <;>
    · simp only [min_def, max_def]
      split_ifs <;> linarith

/-- A point in the bounding box of a synthesized footprint has its x
coordinate inside that footprint's x-interval. -/
theorem inFootprintBox_synth_bounds (i : ℕ) (w d : ℚ) (hw : 0 ≤ w)
    (p : ℚ × ℚ) (h : inFootprintBox (synthFootprint i w d) p = true) :
    (i : ℚ) * (w + 10) ≤ p.1 ∧ p.1 ≤ (i : ℚ) * (w + 10) + w := by
  simp only [inFootprintBox, footprintBox_synthFootprint i w d hw,
    decide_eq_true_eq] at h
  exact ⟨h.1, h.2.1⟩

/-- Two synthesized footprints at distinct indices with the same nonnegative
width have disjoint bounding boxes. -/
theorem synth_boxes_disjoint (i j : ℕ) (w d_i d_j : ℚ) (hw : 0 ≤ w)
    (hij : i ≠ j) (p : ℚ × ℚ) :
    ¬(inFootprintBox (synthFootprint i w d_i) p = true ∧
      inFootprintBox (synthFootprint j w d_j) p = true) := by
  rintro ⟨hi, hj⟩
  have Bi := inFootprintBox_synth_bounds i w d_i hw p hi
  have Bj := inFootprintBox_synth_bounds j w d_j hw p hj
  rcases Nat.lt_or_ge i j with h | h
  · have hc : ((i : ℚ) + 1) ≤ (j : ℚ) := by exact_mod_cast h
    have := mul_le_mul_of_nonneg_right hc (show (0 : ℚ) ≤ w + 10 by linarith)
    nlinarith [Bi.2, Bj.1]
  · have hj_lt : j < i := lt_of_le_of_ne h (Ne.symm hij)
    have hc : ((j : ℚ) + 1) ≤ (i : ℚ) := by exact_mod_cast hj_lt
    have := mul_le_mul_of_nonneg_right hc (show (0 : ℚ) ≤ w + 10 by linarith)
    nlinarith [Bj.2, Bi.1]

/-- C3 counterexample: two surviving AI entries of widths 100 and 5 (no
extracted polygons) get the synthesized footprints at offsets 0 and
1*(5+10) = 15, and the point (17.5, 7.5) lies inside both rectangles — the
synthesized footprints of distinct entries can overlap when their widths
differ, against the claim that they never overlap. -/
theorem c3_counterexample :
    (normalize_extraction_data emptyExtraction (some c3TwoEntryInterp)).map
      (fun b => b.footprint) = [synthFootprint 0 100 15, synthFootprint 1 5 15]
    ∧ inFootprintBox (synthFootprint 0 100 15) (35/2, 15/2) = true
    ∧ inFootprintBox (synthFootprint 1 5 15) (35/2, 15/2) = true := by
  refine ⟨?_, ?_, ?_⟩
  · norm_num [normalize_extraction_data, aiBuildings, c3TwoEntryInterp,
      emptyExtraction, normalizeAiEntry, effectiveConf, ConfVal.toFloat?,
      CONFIDENCE_THRESHOLD, List.enum, List.enumFrom, synthFootprint]
    rw [if_neg (List.cons_ne_nil _ _)]
    simp
  · norm_num [inFootprintBox, footprintBox, synthFootprint, List.foldl,
      min_def, max_def]
  · norm_num [inFootprintBox, footprintBox, synthFootprint, List.foldl,
      min_def, max_def]

/-- C3 amended: a surviving AI entry with no extracted polygon at its index
gets exactly the rectangle of its guessed width and depth offset along x by
`i * (width + 10)`; and the synthesized rectangles of two distinct entries
are disjoint whenever the two entries share the same nonnegative guessed
width (for differing widths they can overlap, see the counterexample). -/
theorem c3_synthesized_footprints (coordinates : List (List (ℚ × ℚ)))
    (overall : ConfVal) (i j : ℕ) (ab : AiEntry) (q w d_i d_j : ℚ)
    (hq : (effectiveConf overall ab).toFloat? = some q)
    (hge : CONFIDENCE_THRESHOLD ≤ q)
    (hsynth : coordinates.length ≤ i)
    (hw : 0 ≤ w) (hij : i ≠ j) :
    (normalizeAiEntry coordinates overall i ab).map (fun b => b.footprint) =
      [synthFootprint i (ab.width.getD 20) (ab.depth.getD 15)]
    ∧ ∀ p : ℚ × ℚ, ¬(inFootprintBox (synthFootprint i w d_i) p = true ∧
        inFootprintBox (synthFootprint j w d_j) p = true) := by
  constructor
  · have hnc : ¬(coordinates ≠ [] ∧ i < coordinates.length) := by
      rintro ⟨-, hlt⟩; omega
    simp [normalizeAiEntry, hq, not_lt.mpr hge, hnc]
  · intro p
    exact synth_boxes_disjoint i j w d_i d_j hw hij p

/-- C3 witness: a width-5 entry at index 0 with no extracted polygons gets
the synthesized rectangle at offset 0, and the synthesized rectangles of
indices 0 and 1 for the shared width 5 do not both contain the origin. -/
theorem c3_synthesized_footprints_witness :
    (normalizeAiEntry [] (.num 0) 0 c3WitnessEntry).map (fun b => b.footprint) =
      [synthFootprint 0 (c3WitnessEntry.width.getD 20) (c3WitnessEntry.depth.getD 15)]
    ∧ ¬(inFootprintBox (synthFootprint 0 5 15) (0, 0) = true ∧
        inFootprintBox (synthFootprint 1 5 15) (0, 0) = true) :=
  have h := c3_synthesized_footprints [] (.num 0) 0 1 c3WitnessEntry 1 5 15 15
    rfl (by norm_num [CONFIDENCE_THRESHOLD]) (by decide) (by decide) (by decide)
  ⟨h.1, h.2 (0, 0)⟩

/-- C6 counterexample: an unclosed 3-point polyline becomes a footprint
candidate of `extract_cad`, against the claim that only closed polylines
with at least 3 points do — the source never inspects the closed flag. -/
theorem c6_counterexample :
    extract_cad_coordinates [.polyline openTriPolyline "0"] = [[(0, 0), (1, 0), (0, 1)]]
    ∧ openTriPolyline.closed = false := by
  constructor
  · rfl
  · rfl

/-- C6 amended: the footprint candidates of `extract_cad` are exactly the
polylines with at least 3 points, closed or not: a point list is appended to
`coordinates` precisely when some polyline entity carries it and it has at
least 3 points, and no polyline with fewer than 3 points contributes. -/
theorem c6_footprint_candidates (entities : List DxfEntity) (pts : List (ℚ × ℚ)) :
    (pts ∈ extract_cad_coordinates entities ↔
      ∃ poly layer, DxfEntity.polyline poly layer ∈ entities ∧
        poly.points = pts ∧ 3 ≤ pts.length)
    ∧ (extract_cad_coordinates entities).length =
        ((cadPolylines entities).filter (fun poly => 3 ≤ poly.points.length)).length := by
  constructor
  · constructor
    · intro h
      simp only [extract_cad_coordinates, List.mem_map, List.mem_filter,
        decide_eq_true_eq] at h
      obtain ⟨poly, ⟨hpoly, hlen⟩, hpts⟩ := h
      simp only [cadPolylines, List.mem_filterMap] at hpoly
      obtain ⟨e, he, hme⟩ := hpoly
      cases e with
      | polyline p layer =>
        simp only [Option.some.injEq] at hme
        subst hme
        exact ⟨p, layer, he, hpts, hpts ▸ hlen⟩
      | line a b layer => simp at hme
      | dimension v t => simp at hme
      | other k => simp at hme
    · rintro ⟨poly, layer, he, hpts, hlen⟩
      simp only [extract_cad_coordinates, List.mem_map, List.mem_filter,
        decide_eq_true_eq]
      refine ⟨poly, ⟨?_, hpts ▸ hlen⟩, hpts⟩
      simp only [cadPolylines, List.mem_filterMap]
      exact ⟨.polyline poly layer, he, rfl⟩
  · simp [extract_cad_coordinates]

/-- C4: roof generation returns no mesh for `flat`; a mesh of exactly 6
(triangular, being vertex-index triples) faces for `gabled`; a mesh of
exactly 4 faces for `hipped` — for every nonempty footprint, whatever its
size or shape; and any unrecognized roof type behaves like `flat` (no roof
mesh). -/
theorem c4_roof_face_counts (fp : List (ℚ × ℚ)) (h : ℚ) (rt : String)
    (hfp : fp ≠ []) :
    generate_roof fp h "flat" = none
    ∧ (generate_roof fp h "gabled").map (fun m => m.faces.length) = some 6
    ∧ (generate_roof fp h "hipped").map (fun m => m.faces.length) = some 4
    ∧ (rt ≠ "flat" → rt ≠ "gabled" → rt ≠ "hipped" → generate_roof fp h rt = none) := by
  obtain ⟨p, rest, rfl⟩ := List.exists_cons_of_ne_nil hfp
  refine ⟨rfl, ?_, ?_, ?_⟩
  · simp [generate_roof, gabled_roof]
  · simp [generate_roof, hipped_roof]
  · intro h1 h2 h3
    simp [generate_roof, h1, h2, h3]

/-- C4 witness: on a rectangular footprint, flat gives no roof, gabled 6
faces, hipped 4 faces, and the unknown type "dome" gives no roof. -/
theorem c4_roof_face_counts_witness :
    generate_roof sampleRectFootprint 10 "flat" = none
    ∧ (generate_roof sampleRectFootprint 10 "gabled").map
        (fun m => m.faces.length) = some 6
    ∧ (generate_roof sampleRectFootprint 10 "hipped").map
        (fun m => m.faces.length) = some 4
    ∧ ("dome" ≠ "flat" → "dome" ≠ "gabled" → "dome" ≠ "hipped" →
        generate_roof sampleRectFootprint 10 "dome" = none) :=
  c4_roof_face_counts sampleRectFootprint 10 "dome" (by decide)

/-- C9: when the `floors` value of the generator input is 0,
`generate_building` raises `ZeroDivisionError` before any geometry step
runs, even when an explicit `floor_height` value is supplied, because the
dict-get fallback expression `height / floors` is evaluated unconditionally;
the result is the error, never a scene, so the per-step best-effort recovery
of the geometry helpers is never reached. -/
theorem c9_zero_floors_raises (bd : BuildingGenData) (hz : bd.floors = some 0) :
    generate_building bd = .error .zeroDivision := by
  simp [generate_building, hz]

/-- C9 witness: a well-formed footprint with `floors = 0` and an explicit
`floor_height = 3` still yields the `ZeroDivisionError`. -/
theorem c9_zero_floors_raises_witness :
    generate_building c9SampleData = .error .zeroDivision :=
  c9_zero_floors_raises c9SampleData rfl

/-- The k-th status check happens exactly when `k * poll_interval` is still
below the timeout, i.e. for the first `numPollChecks` values of k. -/
theorem lt_numPollChecks_iff (timeout p k : ℕ) (hp : 0 < p) :
    k < numPollChecks timeout p ↔ k * p < timeout := by
  unfold numPollChecks
  rw [Nat.lt_iff_add_one_le, Nat.le_div_iff_mul_le hp, Nat.succ_mul]
  generalize k * p = x
  omega

/-- The polling loop, entered at the k-th check with `elapsed = k * p`,
computes the first-terminal-check scan over the remaining checks. -/
theorem pollLoop_eq_spec (task : ℕ → MeshyTaskResult) (task_id : String)
    (timeout p : ℕ) (hp : 0 < p) :
    ∀ n k, numPollChecks timeout p - k = n →
      pollLoop task task_id timeout p hp k (k * p) =
        match (List.range' k n).find? (fun m => isTerminalStatus (task m)) with
        | some m =>
          if (task m).status.toUpper = "SUCCEEDED" then .ok (task m)
          else .runtimeError ("Meshy task " ++ task_id ++ " failed: " ++
            meshyErrorMsg (task m))
        | none => .timeoutError ("Meshy task " ++ task_id ++ " timed out after " ++
            toString timeout ++ "s") := by
  intro n
  induction n with
  | zero =>
    intro k hn
    have hk : ¬ k * p < timeout := by
      rw [← lt_numPollChecks_iff timeout p k hp]
      omega
    unfold pollLoop
    rw [dif_neg hk]
    simp [List.range']
  | succ n ih =>
    intro k hn
    have hk : k * p < timeout := by
      rw [← lt_numPollChecks_iff timeout p k hp]
      omega
    unfold pollLoop
    rw [dif_pos hk]
    rw [List.range'_succ]
    by_cases hs : (task k).status.toUpper = "SUCCEEDED"
    · have hterm : isTerminalStatus (task k) = true := by
        simp [isTerminalStatus, hs]
      simp [List.find?_cons, hterm, hs]
    · by_cases hf : (task k).status.toUpper = "FAILED" ∨
          (task k).status.toUpper = "EXPIRED"
      · have hterm : isTerminalStatus (task k) = true := by
          rcases hf with h | h <;> simp [isTerminalStatus, h]
        simp [List.find?_cons, hterm, hs, hf]
      · have hterm : isTerminalStatus (task k) = false := by
          push_neg at hf
          simp [isTerminalStatus, hs, hf.1, hf.2]
        simp only [if_neg hs, if_neg hf]
        rw [show k * p + p = (k + 1) * p from by ring]
        rw [ih (k + 1) (by omega)]
        simp [List.find?_cons, hterm]

/-- C8: `poll_until_done` has exactly the three claimed outcomes, decided by
the first terminal status among the checks that happen before the timeout
ceiling: the task result at the first check reporting SUCCEEDED, a
`RuntimeError` at the first check reporting FAILED or EXPIRED (no further
polls), and a `TimeoutError` when no terminal status is observed before
elapsed time reaches the timeout. -/
theorem c8_poll_until_done (task : ℕ → MeshyTaskResult) (task_id : String)
    (timeout poll_interval : ℕ) (hp : 0 < poll_interval) :
    poll_until_done task task_id timeout poll_interval hp =
      pollOutcomeSpec task task_id timeout poll_interval := by
  unfold poll_until_done pollOutcomeSpec
  have h := pollLoop_eq_spec task task_id timeout poll_interval hp
    (numPollChecks timeout poll_interval) 0 (by omega)
  rw [Nat.zero_mul] at h
  rw [h, List.range_eq_range']

/-- C8 witness: a trace that is PENDING twice and then SUCCEEDED, polled
every 10 seconds against a 300-second ceiling, matches the specification
outcome. -/
theorem c8_poll_until_done_witness :
    poll_until_done c8SampleTask "task-1" 300 10 (by decide) =
      pollOutcomeSpec c8SampleTask "task-1" 300 10 :=
  c8_poll_until_done c8SampleTask "task-1" 300 10 (by decide)

/-- Flattening two-element chunks doubles the length. -/
theorem length_flatMap_pairs {α : Type _} {l : List ℕ} {f g : ℕ → α} :
    (l.flatMap (fun i => [f i, g i])).length = 2 * l.length := by
  induction l with
  | nil => simp
  | cons j t ih =>
    rw [List.flatMap_cons, List.length_append, ih, List.length_cons]
    simp
    omega

/-- The squared length of an edge is nonnegative. -/
theorem edgeLenSq_nonneg (a b : ℚ × ℚ) : 0 ≤ edgeLenSq a b :=
  add_nonneg (sq_nonneg _) (sq_nonneg _)

/-- Invariant of the longest-edge fold: the tracked value only grows and
ends at least as large as every candidate, and the result is either the
initial accumulator or one of the candidates. -/
theorem foldl_best_spec (sq : ℕ → ℚ) :
    ∀ (l : List ℕ) (acc : ℕ × ℚ),
      acc.2 ≤ (l.foldl (fun acc i => if acc.2 < sq i then (i, sq i) else acc) acc).2
      ∧ (∀ i ∈ l, sq i ≤
          (l.foldl (fun acc i => if acc.2 < sq i then (i, sq i) else acc) acc).2)
      ∧ ((l.foldl (fun acc i => if acc.2 < sq i then (i, sq i) else acc) acc) = acc
          ∨ ∃ i ∈ l,
            (l.foldl (fun acc i => if acc.2 < sq i then (i, sq i) else acc) acc) =
              (i, sq i)) := by
  intro l
  induction l with
  | nil => intro acc; exact ⟨le_refl _, by simp, Or.inl rfl⟩
  | cons j t ih =>
    intro acc
    rw [List.foldl_cons]
    obtain ⟨ih1, ih2, ih3⟩ := ih (if acc.2 < sq j then (j, sq j) else acc)
    have hstep : acc.2 ≤ (if acc.2 < sq j then (j, sq j) else acc).2 := by
      split
      · exact le_of_lt (by assumption)
      · exact le_refl _
    have hj : sq j ≤ (if acc.2 < sq j then (j, sq j) else acc).2 := by
      split
      · exact le_refl _
      · exact le_of_not_lt (by assumption)
    refine ⟨le_trans hstep ih1, ?_, ?_⟩
    · intro i hi
      rcases List.mem_cons.mp hi with rfl | hit
      · exact le_trans hj ih1
      · exact ih2 i hit
    · rcases ih3 with heq | ⟨i, hit, heq⟩
      · rw [heq]
        split
        · exact Or.inr ⟨j, List.mem_cons_self j t, rfl⟩
        · exact Or.inl rfl
      · exact Or.inr ⟨i, List.mem_cons_of_mem j hit, heq⟩

/-- The longest-edge fold's value bounds every edge's squared length and is
attained at its recorded index (for footprints of at least 2 points). -/
theorem bestEdgeFold_spec (pts : List (ℚ × ℚ)) (hlen : 2 ≤ pts.length) :
    (∀ i ∈ List.range (pts.length - 1),
      edgeLenSq (pts.getD i (0, 0)) (pts.getD (i + 1) (0, 0)) ≤ (bestEdgeFold pts).2)
    ∧ (bestEdgeFold pts).2 =
        edgeLenSq (pts.getD (bestEdgeFold pts).1 (0, 0))
          (pts.getD ((bestEdgeFold pts).1 + 1) (0, 0)) := by
  have h := foldl_best_spec
    (fun i => edgeLenSq (pts.getD i (0, 0)) (pts.getD (i + 1) (0, 0)))
    (List.range (pts.length - 1)) (0, 0)
  have hfold : bestEdgeFold pts =
      (List.range (pts.length - 1)).foldl
        (fun acc i => if acc.2 < edgeLenSq (pts.getD i (0, 0)) (pts.getD (i + 1) (0, 0))
          then (i, edgeLenSq (pts.getD i (0, 0)) (pts.getD (i + 1) (0, 0))) else acc)
        (0, 0) := rfl
  rw [hfold]
  refine ⟨h.2.1, ?_⟩
  rcases h.2.2 with heq | ⟨i, _, heq⟩
  · rw [heq]
    have h0 : (0 : ℕ) ∈ List.range (pts.length - 1) := by
      rw [List.mem_range]
      omega
    have hb := h.2.1 0 h0
    rw [heq] at hb
    have hnn := edgeLenSq_nonneg (pts.getD 0 (0, 0)) (pts.getD 1 (0, 0))
    simp only at hb ⊢
    linarith
  · rw [heq]

/-- C7: for a footprint with at least 2 distinct vertices, a floor count F
and a positive floor height, balcony generation returns exactly 2*(F-1)
meshes — per floor above the ground floor one slab of extents
`(min(2.5, best_len*0.3), 1.2, 0.15)` and one 1-tall railing box of extents
`(width, 0.05, 1.0)` — where `best_len` is the longest edge's length: the
fold value bounds every edge's squared length and equals the squared length
of the edge at its recorded index. -/
theorem c7_balcony_count (pts : List (ℚ × ℚ)) (floors : ℤ) (fh : ℚ)
    (hpts : ∃ a ∈ pts, ∃ b ∈ pts, a ≠ b) (_hfh : 0 < fh) (hfl : 1 ≤ floors) :
    ((generate_balconies pts floors fh).length : ℤ) = 2 * (floors - 1)
    ∧ (∀ m ∈ generate_balconies pts floors fh,
        (m.kind = .slab → m.extents =
          (min 2.5 (Real.sqrt (((bestEdgeFold pts).2 : ℚ) : ℝ) * 0.3), 1.2, 0.15))
        ∧ (m.kind = .railing → m.extents =
          (min 2.5 (Real.sqrt (((bestEdgeFold pts).2 : ℚ) : ℝ) * 0.3), 0.05, 1.0)))
    ∧ (∀ i ∈ List.range (pts.length - 1),
        edgeLenSq (pts.getD i (0, 0)) (pts.getD (i + 1) (0, 0)) ≤ (bestEdgeFold pts).2)
    ∧ (bestEdgeFold pts).2 =
        edgeLenSq (pts.getD (bestEdgeFold pts).1 (0, 0))
          (pts.getD ((bestEdgeFold pts).1 + 1) (0, 0)) := by
  have hlen2 : 2 ≤ pts.length := by
    obtain ⟨a, ha, b, hb, hab⟩ := hpts
    rcases pts with _ | ⟨x, _ | ⟨y, t⟩⟩
    · exact absurd ha (List.not_mem_nil a)
    · rw [List.mem_singleton] at ha hb
      exact absurd (ha.trans hb.symm) hab
    · simp
  have hnotlt : ¬ pts.length < 2 := by omega
  have hspec := bestEdgeFold_spec pts hlen2
  refine ⟨?_, ?_, hspec.1, hspec.2⟩
  · simp only [generate_balconies]
    rw [if_neg hnotlt]
    rw [length_flatMap_pairs, List.length_range']
    have : (0 : ℤ) ≤ floors - 1 := by omega
    push_cast [Int.toNat_of_nonneg this]
    ring
  · intro m hm
    simp only [generate_balconies] at hm
    rw [if_neg hnotlt] at hm
    simp only [List.mem_flatMap, List.mem_cons, List.mem_singleton,
      List.not_mem_nil, or_false] at hm
    obtain ⟨fi, _, hm⟩ := hm
    rcases hm with rfl | rfl
    · exact ⟨fun _ => rfl, fun hk => by simp at hk⟩
    · exact ⟨fun hk => by simp at hk, fun _ => rfl⟩

/-- C7 witness: a closed 10 by 5 rectangle with 3 floors of height 3 gets
2*(3-1) = 4 balcony meshes with the stated extents. -/
theorem c7_balcony_count_witness :
    ((generate_balconies sampleRectFootprint 3 3).length : ℤ) = 2 * (3 - 1)
    ∧ (∀ m ∈ generate_balconies sampleRectFootprint 3 3,
        (m.kind = .slab → m.extents =
          (min 2.5 (Real.sqrt (((bestEdgeFold sampleRectFootprint).2 : ℚ) : ℝ) * 0.3),
            1.2, 0.15))
        ∧ (m.kind = .railing → m.extents =
          (min 2.5 (Real.sqrt (((bestEdgeFold sampleRectFootprint).2 : ℚ) : ℝ) * 0.3),
            0.05, 1.0)))
    ∧ (∀ i ∈ List.range (sampleRectFootprint.length - 1),
        edgeLenSq (sampleRectFootprint.getD i (0, 0))
          (sampleRectFootprint.getD (i + 1) (0, 0)) ≤ (bestEdgeFold sampleRectFootprint).2)
    ∧ (bestEdgeFold sampleRectFootprint).2 =
        edgeLenSq (sampleRectFootprint.getD (bestEdgeFold sampleRectFootprint).1 (0, 0))
          (sampleRectFootprint.getD ((bestEdgeFold sampleRectFootprint).1 + 1) (0, 0)) :=
  c7_balcony_count sampleRectFootprint 3 3
    ⟨(0, 0), by decide, (10, 0), by decide, by decide⟩ (by decide) (by decide)

/-- `pageSortLE` as a proposition: ascending type priority, then descending
confidence. -/
theorem pageSortLE_eq_true_iff (a b : ℕ × PageClassification) :
    pageSortLE a b = true ↔
      (typePriority a.2.ptype < typePriority b.2.ptype
        ∨ (typePriority a.2.ptype = typePriority b.2.ptype ∧
            b.2.confidence ≤ a.2.confidence)) := by
  unfold pageSortLE
  split_ifs with h1 h2
  · simp [h1]
  · constructor
    · intro h
      exact absurd h (by simp)
    · rintro (h | ⟨h, -⟩) <;> omega
  · rw [decide_eq_true_eq]
    constructor
    · intro h
      exact Or.inr ⟨by omega, h⟩
    · rintro (h | ⟨-, h⟩)
      · omega
      · exact h

/-- The page-sort comparison is transitive. -/
theorem pageSortLE_trans : ∀ a b c, pageSortLE a b → pageSortLE b c → pageSortLE a c := by
  intro a b c hab hbc
  rw [pageSortLE_eq_true_iff] at *
  rcases hab with h1 | ⟨h1, hc1⟩ <;> rcases hbc with h2 | ⟨h2, hc2⟩
  · exact Or.inl (h1.trans h2)
  · exact Or.inl (h2 ▸ h1)
  · exact Or.inl (h1 ▸ h2)
  · exact Or.inr ⟨h1.trans h2, le_trans hc2 hc1⟩

/-- The page-sort comparison is total. -/
theorem pageSortLE_total : ∀ a b, pageSortLE a b || pageSortLE b a := by
  intro a b
  rw [Bool.or_eq_true, pageSortLE_eq_true_iff, pageSortLE_eq_true_iff]
  rcases Nat.lt_trichotomy (typePriority a.2.ptype) (typePriority b.2.ptype) with h | h | h
  · exact Or.inl (Or.inl h)
  · rcases le_total b.2.confidence a.2.confidence with hc | hc
    · exact Or.inl (Or.inr ⟨h, hc⟩)
    · exact Or.inr (Or.inr ⟨h.symm, hc⟩)
  · exact Or.inr (Or.inl h)

/-- Rebuilding a parallel list through enumerated indices is the zip:
the generalized form walks the classifications with an index offset equal
to the length of the image prefix already consumed. -/
theorem enumFrom_map_getD_eq_zip :
    ∀ (cls : List PageClassification) (pre imgs : List ℕ),
      imgs.length = cls.length →
      (cls.enumFrom pre.length).map (fun p => ((pre ++ imgs).getD p.1 0, p.2)) =
        imgs.zip cls := by
  intro cls
  induction cls with
  | nil =>
    intro pre imgs h
    rw [List.length_nil, List.length_eq_zero] at h
    subst h
    simp
  | cons c cs ih =>
    intro pre imgs h
    cases imgs with
    | nil => simp at h
    | cons x xs =>
      rw [List.enumFrom_cons, List.map_cons, List.zip_cons_cons]
      have hx : (pre ++ x :: xs).getD pre.length 0 = x := by
        rw [List.getD_eq_getElem?_getD, List.getElem?_append_right (le_refl pre.length)]
        simp
      rw [hx]
      congr 1
      have h' : xs.length = cs.length := by
        simpa using h
      have := ih (pre ++ [x]) xs h'
      rw [List.length_append, List.length_singleton, List.append_assoc,
        List.singleton_append] at this
      exact this

/-- The enumerated list is strictly increasing in its first components. -/
theorem enum_pairwise_fst_lt {α : Type _} (l : List α) :
    l.enum.Pairwise (fun a b => a.1 < b.1) := by
  rw [List.pairwise_iff_getElem]
  intro i j hi hj hij
  simp only [List.enum] at hi hj ⊢
  rw [List.enumFrom_length] at hi hj
  simp only [List.getElem_enumFrom]
  simpa using hij

/-- The enumerated list has no duplicates. -/
theorem enum_nodup {α : Type _} (l : List α) : l.enum.Nodup :=
  (enum_pairwise_fst_lt l).imp (fun h => by
    intro he
    rw [he] at h
    exact lt_irrefl _ h)

/-- Two entries of an enumerated list with the same index are equal. -/
theorem enum_eq_of_fst_eq {α : Type _} {l : List α} {a b : ℕ × α}
    (ha : a ∈ l.enum) (hb : b ∈ l.enum) (h : a.1 = b.1) : a = b := by
  obtain ⟨i, hi, ha'⟩ := List.mem_iff_getElem.mp ha
  obtain ⟨j, hj, hb'⟩ := List.mem_iff_getElem.mp hb
  subst ha' hb'
  simp only [List.enum, List.getElem_enumFrom, Nat.zero_add] at h
  subst h
  rfl

/-- In a strictly-ordered list, two members in relation form a pair
sublist. -/
theorem pair_sublist_of_pairwise_mem {α : Type _} {R : α → α → Prop} :
    ∀ {l : List α}, l.Pairwise R → (∀ x y, R x y → ¬ R y x) →
      ∀ {a b}, a ∈ l → b ∈ l → R a b → List.Sublist [a, b] l := by
  intro l
  induction l with
  | nil =>
    intro _ _ a b ha
    exact absurd ha (List.not_mem_nil a)
  | cons x t ih =>
    intro hp hasym a b ha hb hr
    rw [List.pairwise_cons] at hp
    rcases List.mem_cons.mp ha with rfl | hat
    · rcases List.mem_cons.mp hb with rfl | hbt
      · exact absurd hr (hasym _ _ hr)
      · exact List.Sublist.cons₂ a (List.singleton_sublist.mpr hbt)
    · rcases List.mem_cons.mp hb with rfl | hbt
      · exact absurd (hp.1 a hat) (hasym a b hr)
      · exact List.Sublist.cons x (ih hp.2 hasym hat hbt hr)

/-- In a duplicate-free list, a pair cannot be a sublist in both orders
unless its components are equal. -/
theorem pair_sublist_antisymm {α : Type _} :
    ∀ {l : List α}, l.Nodup → ∀ {a b : α},
      List.Sublist [a, b] l → List.Sublist [b, a] l → a = b := by
  intro l
  induction l with
  | nil =>
    intro _ a b hab
    simp at hab
  | cons x t ih =>
    intro hnd a b hab hba
    rw [List.nodup_cons] at hnd
    cases hab with
    | cons _ hab' =>
      cases hba with
      | cons _ hba' => exact ih hnd.2 hab' hba'
      | cons₂ _ hba' =>
        exact absurd (hab'.subset (by simp)) hnd.1
    | cons₂ _ hab' =>
      cases hba with
      | cons _ hba' =>
        exact absurd (hba'.subset (by simp)) hnd.1
      | cons₂ _ hba' => rfl

/-- C5: the page-reordering step of `extract_pdf` keeps images and
classifications parallel — their zip after sorting is a permutation of the
zip before, and both lengths are preserved — orders the classifications by
ascending type priority then descending confidence, and is stable: among
sorted entries whose priority and confidence tie exactly, the original page
indices stay in increasing order. -/
theorem c5_page_sort (images : List ℕ) (cls : List PageClassification)
    (hlen : images.length = cls.length) :
    List.Perm
      ((sortPagesByClassification images cls).1.zip
        (sortPagesByClassification images cls).2)
      (images.zip cls)
    ∧ (sortPagesByClassification images cls).1.length = images.length
    ∧ (sortPagesByClassification images cls).2.length = cls.length
    ∧ (sortPagesByClassification images cls).2.Pairwise (fun a b =>
        typePriority a.ptype < typePriority b.ptype
        ∨ (typePriority a.ptype = typePriority b.ptype ∧ b.confidence ≤ a.confidence))
    ∧ (cls.enum.mergeSort pageSortLE).Pairwise (fun a b =>
        (typePriority a.2.ptype = typePriority b.2.ptype ∧
          a.2.confidence = b.2.confidence) → a.1 < b.1) := by
  have hperm : List.Perm (cls.enum.mergeSort pageSortLE) cls.enum :=
    List.mergeSort_perm _ _
  have hnd : (cls.enum.mergeSort pageSortLE).Nodup :=
    hperm.nodup_iff.mpr (enum_nodup cls)
  refine ⟨?_, ?_, ?_, ?_, ?_⟩
  · simp only [sortPagesByClassification]
    rw [List.zip_map']
    refine (hperm.map _).trans ?_
    have hz := enumFrom_map_getD_eq_zip cls [] images hlen
    simp only [List.nil_append, List.length_nil] at hz
    rw [show (cls.enum.map (fun p => (images.getD p.1 0, p.2))) = images.zip cls
      from hz]
  · simp [sortPagesByClassification, hlen]
  · simp [sortPagesByClassification]
  · simp only [sortPagesByClassification]
    rw [List.pairwise_map]
    have hs := List.sorted_mergeSort pageSortLE_trans pageSortLE_total cls.enum
    exact hs.imp (fun h => (pageSortLE_eq_true_iff _ _).mp h)
  · rw [List.pairwise_iff_forall_sublist]
    intro a b hsub htie
    have hma : a ∈ cls.enum :=
      List.mem_mergeSort.mp (hsub.subset (List.mem_cons_self _ _))
    have hmb : b ∈ cls.enum :=
      List.mem_mergeSort.mp (hsub.subset (by simp))
    by_cases hab : a = b
    · subst hab
      have hdup : ([a, a] : List (ℕ × PageClassification)).Nodup := hsub.nodup hnd
      simp at hdup
    · rcases Nat.lt_or_ge a.1 b.1 with h | h
      · exact h
      · have hba : b.1 < a.1 :=
          lt_of_le_of_ne h (fun he => hab (enum_eq_of_fst_eq hmb hma he).symm)
        have hsubenum : List.Sublist [b, a] cls.enum :=
          pair_sublist_of_pairwise_mem (enum_pairwise_fst_lt cls)
            (fun x y hxy hyx => Nat.lt_asymm hxy hyx) hmb hma hba
        have hle : pageSortLE b a = true := by
          rw [pageSortLE_eq_true_iff]
          exact Or.inr ⟨htie.1.symm, le_of_eq htie.2⟩
        have hpair := List.pair_sublist_mergeSort pageSortLE_trans pageSortLE_total
          hle hsubenum
        exact absurd (pair_sublist_antisymm hnd hsub hpair) hab

/-- C5 witness: a text page followed by a floor-plan page; the sort must put
the floor plan first and keep the image tokens aligned. -/
theorem c5_page_sort_witness :
    List.Perm
      ((sortPagesByClassification c5SampleImages c5SampleCls).1.zip
        (sortPagesByClassification c5SampleImages c5SampleCls).2)
      (c5SampleImages.zip c5SampleCls)
    ∧ (sortPagesByClassification c5SampleImages c5SampleCls).1.length =
        c5SampleImages.length
    ∧ (sortPagesByClassification c5SampleImages c5SampleCls).2.length =
        c5SampleCls.length
    ∧ (sortPagesByClassification c5SampleImages c5SampleCls).2.Pairwise (fun a b =>
        typePriority a.ptype < typePriority b.ptype
        ∨ (typePriority a.ptype = typePriority b.ptype ∧ b.confidence ≤ a.confidence))
    ∧ (c5SampleCls.enum.mergeSort pageSortLE).Pairwise (fun a b =>
        (typePriority a.2.ptype = typePriority b.2.ptype ∧
          a.2.confidence = b.2.confidence) → a.1 < b.1) :=
  c5_page_sort c5SampleImages c5SampleCls rfl
